import Mathlib

/-!
Shallow embedding of the `pkg/conf` configuration client of this repository
(files `pkg/conf/conf.go` and the unnamed client file): the data model
(`SiteConfiguration`, stores, watcher channels), the client operations
(`Get`, `GetTODO`, `MockBasic`, `MockCore`, `Watch`, `notifyWatchers`,
`fetchAndUpdateBasic`, `fetchAndUpdateCore`, one iteration of
`continuouslyUpdate`), the mode selection (`getMode`) and the package
`init` function.  Go pointers that may be nil become `Option`; heap
allocation of `&SiteConfiguration{...}` is modelled with an explicit
allocation counter so that freshness of the returned pointer is statable;
goroutine-visible ordering of straight-line code is modelled by emitted
event traces; the results of external input/output calls (the fetchers'
HTTP or passthrough reads, the random generator) are supplied as oracle
arguments.
-/

/-- A Go error value, identified by its message string. -/
structure GoError where
  msg : String
deriving DecidableEq, Repr

/-- Embedding of pkg/errors `errors.Wrap(err, message)`: the wrapped error
carries the annotation followed by the original message. -/
def errorsWrap (e : GoError) (message : String) : GoError :=
  ⟨message ++ (": ") ++ e.msg⟩

/-- Embedding of hashicorp go-multierror `multierror.Append`: a nil error
contributes nothing, a non-nil error is appended to the accumulated list. -/
def multierrorAppend (errs : List GoError) (e : Option GoError) : List GoError :=
  match e with
  | none => errs
  | some e => errs ++ [e]

/-- The validated basic-category configuration object
(`schema.BasicSiteConfiguration`, external to the core); its schema is out
of scope, so it is kept opaque up to equality. -/
structure BasicSiteConfiguration where
  content : String
deriving DecidableEq, Repr

/-- The validated core-category configuration object
(`schema.CoreSiteConfiguration`, external to the core); kept opaque up to
equality. -/
structure CoreSiteConfiguration where
  content : String
deriving DecidableEq, Repr

/-- Result of a conditional store update, with the `Changed` field read by
the client (`configChange.Changed`). -/
structure ConfigChange where
  Changed : Bool
deriving DecidableEq, Repr

/-- Modelled from the spec: `store.BasicStore` lives in package
`pkg/conf/store`, which is not under src/.  Per the spec the store holds
one optional last-valid snapshot plus an optional mock override that takes
precedence over fetched values entirely, becomes initialized on first
successful validation or mock set and never regresses; its internal
parsing/schema validation is out of scope and is abstracted as the
`validate` function. -/
structure BasicStore where
  validate : String → Option BasicSiteConfiguration
  lastValid : Option BasicSiteConfiguration
  mock : Option BasicSiteConfiguration
  initialized : Bool

/-- Modelled from the spec: `store.CoreStore`, the core-category twin of
`BasicStore` (package `pkg/conf/store` is not under src/). -/
structure CoreStore where
  validate : String → Option CoreSiteConfiguration
  lastValid : Option CoreSiteConfiguration
  mock : Option CoreSiteConfiguration
  initialized : Bool

/-- Modelled from the spec: `store.NewBasicStore()` creates an empty,
uninitialized store. -/
def NewBasicStore (v : String → Option BasicSiteConfiguration) : BasicStore :=
  { validate := v, lastValid := none, mock := none, initialized := false }

/-- Modelled from the spec: `store.NewCoreStore()` creates an empty,
uninitialized store. -/
def NewCoreStore (v : String → Option CoreSiteConfiguration) : CoreStore :=
  { validate := v, lastValid := none, mock := none, initialized := false }

/-- Modelled from the spec: `LastValid` returns the mock override when one
is present, otherwise the last validated snapshot (nil before the first
successful update). -/
def BasicStore.LastValid (s : BasicStore) : Option BasicSiteConfiguration :=
  match s.mock with
  | some m => some m
  | none => s.lastValid

/-- Modelled from the spec: `LastValid` for the core-category store. -/
def CoreStore.LastValid (s : CoreStore) : Option CoreSiteConfiguration :=
  match s.mock with
  | some m => some m
  | none => s.lastValid

/-- Modelled from the spec: `Mock` sets the override (a nil value clears
it); setting a mock initializes the store, and initialization never
regresses. -/
def BasicStore.Mock (s : BasicStore) (mockery : Option BasicSiteConfiguration) : BasicStore :=
  { s with mock := mockery, initialized := s.initialized || mockery.isSome }

/-- Modelled from the spec: `Mock` for the core-category store. -/
def CoreStore.Mock (s : CoreStore) (mockery : Option CoreSiteConfiguration) : CoreStore :=
  { s with mock := mockery, initialized := s.initialized || mockery.isSome }

/-- Modelled from the spec: `MaybeUpdate(raw)` validates the raw document;
on rejection the previous snapshot and initialization state are untouched
and an error is returned; on success the last-valid snapshot is replaced,
the store becomes initialized, and `Changed` reports whether the effective
value differs from the previous one. -/
def BasicStore.MaybeUpdate (s : BasicStore) (rawConfig : String) :
    BasicStore × ConfigChange × Option GoError :=
  match s.validate rawConfig with
  | none => (s, ⟨false⟩, some ⟨"validation failed"⟩)
  | some c =>
    ({ s with lastValid := some c, initialized := true },
     ⟨decide (s.lastValid ≠ some c)⟩, none)

/-- Modelled from the spec: `MaybeUpdate` for the core-category store. -/
def CoreStore.MaybeUpdate (s : CoreStore) (rawConfig : String) :
    CoreStore × ConfigChange × Option GoError :=
  match s.validate rawConfig with
  | none => (s, ⟨false⟩, some ⟨"validation failed"⟩)
  | some c =>
    ({ s with lastValid := some c, initialized := true },
     ⟨decide (s.lastValid ≠ some c)⟩, none)

/-- A Go buffered channel of empty structs, reduced to its capacity and the
number of pending (sent but not yet received) notifications. -/
structure Chan where
  cap : Nat
  pending : Nat
deriving DecidableEq, Repr

/-- A non-blocking send (`select` with a `default` case): if the buffer has
room the value is enqueued and the send succeeds, otherwise the channel is
left as-is and the send reports failure. -/
def Chan.trySend (ch : Chan) : Chan × Bool :=
  if ch.pending < ch.cap then ({ ch with pending := ch.pending + 1 }, true)
  else (ch, false)

/-- The basic-category fetcher implementations of the source file, as tags;
the result of an actual fetch call is external input/output and is supplied
to the refresh-step functions as an oracle argument. -/
inductive BasicFetcherKind where
  | httpBasicFetcher
  | passthroughBasicFetcherFrontendOnly
deriving DecidableEq, Repr

/-- The core-category fetcher implementations of the source file, as tags. -/
inductive CoreFetcherKind where
  | httpCoreFetcher
  | passthroughCoreFetcherFrontendOnly
deriving DecidableEq, Repr

/-- The `client` struct: per-category store and fetcher, the watcher
registry (the mutex only scopes registry accesses and has no sequential
content), and an allocation counter modelling the Go heap so that pointer
freshness is statable. -/
structure client where
  basicStore : BasicStore
  basicFetcher : BasicFetcherKind
  coreStore : CoreStore
  coreFetcher : CoreFetcherKind
  watchers : List Chan
  nextAddr : Nat

/-- The composite read-only view returned by `Get`. -/
structure SiteConfiguration where
  Basic : Option BasicSiteConfiguration
  Core : Option CoreSiteConfiguration
deriving DecidableEq, Repr

/-- A non-nil Go pointer: a heap address plus the pointee value; a nilable
pointer is an `Option` of this. -/
structure Ptr (α : Type) where
  addr : Nat
  val : α
deriving DecidableEq, Repr

/-- Embedding of `client.Get`: allocates a fresh `SiteConfiguration` whose
fields are the two stores' last-valid snapshots and returns a (never nil)
pointer to it; the allocation advances the heap counter. -/
def client.Get (c : client) : client × Option (Ptr SiteConfiguration) :=
  ({ c with nextAddr := c.nextAddr + 1 },
   some ⟨c.nextAddr, { Basic := c.basicStore.LastValid, Core := c.coreStore.LastValid }⟩)

/-- Embedding of `client.GetTODO`, which simply delegates to `client.Get`. -/
def client.GetTODO (c : client) : client × Option (Ptr SiteConfiguration) :=
  c.Get

/-- Embedding of `client.MockBasic`: calls `basicStore.Mock` and nothing
else. -/
def client.MockBasic (c : client) (mockery : Option BasicSiteConfiguration) : client :=
  { c with basicStore := c.basicStore.Mock mockery }

/-- Embedding of `client.MockCore`: calls `coreStore.Mock` and nothing
else. -/
def client.MockCore (c : client) (mockery : Option CoreSiteConfiguration) : client :=
  { c with coreStore := c.coreStore.Mock mockery }

/-- Embedding of `client.notifyWatchers`: one non-blocking send on every
registered watcher channel, in registration order; a full channel is left
as-is.  In Lean this is a total function, which models the fact that the
loop never blocks and always terminates whether or not any watcher drains
its channel. -/
def client.notifyWatchers (c : client) : client :=
  { c with watchers := c.watchers.map (fun watcher => (watcher.trySend).1) }

/-- Context message wrapped around a failed basic-category fetch. -/
def msgFetchBasic : String := "unable to fetch new basic configuration"

/-- Context message wrapped around a rejected basic-category update. -/
def msgUpdateBasic : String := "unable to update new basic configuration"

/-- Context message wrapped around a failed core-category fetch. -/
def msgFetchCore : String := "unable to fetch new core configuration"

/-- Context message wrapped around a rejected core-category update. -/
def msgUpdateCore : String := "unable to update new core configuration"

/-- The observable actions of `client.Watch`, in program order. -/
inductive WatchEvent where
  | makeChan (cap : Nat)
  | registerWatcher
  | waitUntilInitializedBasic
  | waitUntilInitializedCore
  | invokeF
  | spawnNotifyLoop
deriving DecidableEq, Repr

/-- The actions `client.Watch` performs, in the order the source performs
them: allocate the capacity-1 channel, append it to the registry, block on
both stores' `WaitUntilInitialized`, invoke `f` once synchronously, spawn
the background loop that re-invokes `f` on every notification. -/
def watchTrace : List WatchEvent :=
  [WatchEvent.makeChan 1, WatchEvent.registerWatcher,
   WatchEvent.waitUntilInitializedBasic, WatchEvent.waitUntilInitializedCore,
   WatchEvent.invokeF, WatchEvent.spawnNotifyLoop]

/-- Embedding of `client.Watch`: the returned trace is `watchTrace` and the
returned state — the state at the moment `Watch` returns — has the fresh
capacity-1 notification channel appended to the registry. -/
def client.Watch (c : client) : client × List WatchEvent :=
  let notify : Chan := { cap := 1, pending := 0 }
  let c := { c with watchers := c.watchers ++ [notify] }
  (c, watchTrace)

/-- Embedding of `client.fetchAndUpdateBasic`; `fetched` is the result of
the external call `c.basicFetcher.FetchBasicConfig()`.  The boolean in the
result records whether `notifyWatchers` was invoked. -/
def client.fetchAndUpdateBasic (c : client) (fetched : Except GoError String) :
    client × Option GoError × Bool :=
  match fetched with
  | Except.error err => (c, some (errorsWrap err msgFetchBasic), false)
  | Except.ok newRawConfig =>
    let r := c.basicStore.MaybeUpdate newRawConfig
    let c := { c with basicStore := r.1 }
    match r.2.2 with
    | some err => (c, some (errorsWrap err msgUpdateBasic), false)
    | none =>
      if r.2.1.Changed then (c.notifyWatchers, none, true) else (c, none, false)

/-- Embedding of `client.fetchAndUpdateCore`; `fetched` is the result of
the external call `c.coreFetcher.FetchCoreConfig()`. -/
def client.fetchAndUpdateCore (c : client) (fetched : Except GoError String) :
    client × Option GoError × Bool :=
  match fetched with
  | Except.error err => (c, some (errorsWrap err msgFetchCore), false)
  | Except.ok newRawConfig =>
    let r := c.coreStore.MaybeUpdate newRawConfig
    let c := { c with coreStore := r.1 }
    match r.2.2 with
    | some err => (c, some (errorsWrap err msgUpdateCore), false)
    | none =>
      if r.2.1.Changed then (c.notifyWatchers, none, true) else (c, none, false)

/-- Embedding of math/rand `rand.Int63n(n)`: it returns a uniformly
distributed value in the half-open interval `[0, n)`; the generator's state
is the oracle `seed`, and uniformity itself is a property of the external
generator, not modelled. -/
def randInt63n (seed n : Nat) : Nat := seed % n

/-- Nanoseconds per second, the value of Go's `time.Second`. -/
def nsPerSecond : Nat := 1000000000

/-- The observable outcome of one iteration of `client.continuouslyUpdate`:
the client state after both refresh steps, the aggregated multierror of the
iteration, whether the combined error was non-nil and hence logged, and the
jitter sleep duration in nanoseconds. -/
structure IterResult where
  c : client
  errs : List GoError
  logged : Bool
  jitterNs : Nat

/-- Embedding of one iteration of the infinite loop in
`client.continuouslyUpdate`: run the basic step, then the core step
unconditionally, aggregate the two steps' errors with `multierror.Append`,
log the combination when non-nil, and compute the jitter
`rand.Int63n(5 * time.Second)`.  The loop body is a total function and the
`for` has no exit path, so the loop never terminates and no outcome aborts
it. -/
def client.continuouslyUpdateIter (c : client)
    (fetchedBasic fetchedCore : Except GoError String) (seed : Nat) : IterResult :=
  let errs : List GoError := []
  let rb := c.fetchAndUpdateBasic fetchedBasic
  let errs := multierrorAppend errs rb.2.1
  let rc := rb.1.fetchAndUpdateCore fetchedCore
  let errs := multierrorAppend errs rc.2.1
  { c := rc.1, errs := errs, logged := !errs.isEmpty,
    jitterNs := randInt63n seed (5 * nsPerSecond) }

/-- Embedding of `os.IsPathSeparator` on this platform. -/
def isPathSeparator (ch : Char) : Bool := ch = '/'

/-- Scan of `filepath.Ext`, walking the path backwards (first argument is
the reversed character list) while accumulating the suffix seen so far:
stop with empty extension at a path separator, stop with the suffix from
the final dot when one is found. -/
def extRev : List Char → List Char → String
  | [], _ => ""
  | ch :: rest, acc =>
    if isPathSeparator ch then ""
    else if ch = '.' then String.mk (ch :: acc)
    else extRev rest (ch :: acc)

/-- Embedding of `filepath.Ext`: the suffix beginning at the final dot in
the final element of the path, empty if there is no dot. -/
def filepathExt (p : String) : String := extRev p.data.reverse []

/-- The three process roles of `pkg/conf`. -/
inductive configurationMode where
  | modeServer
  | modeClient
  | modeTest
deriving DecidableEq, Repr

/-- The environment value selecting server mode. -/
def modeStrServer : String := "server"

/-- The environment value selecting client mode. -/
def modeStrClient : String := "client"

/-- The executable extension that marks a `go test` binary. -/
def extTest : String := ".test"

/-- Embedding of `getMode`: `mode` is `os.Getenv("CONFIGURATION_MODE")`
(the empty string when unset) and `executable` the result of
`os.Executable()`. -/
def getMode (mode : String) (executable : Except GoError String) : configurationMode :=
  if mode = modeStrServer then configurationMode.modeServer
  else if mode = modeStrClient then configurationMode.modeClient
  else
    match executable with
    | Except.ok p =>
      if filepathExt p = extTest then configurationMode.modeTest
      else configurationMode.modeClient
    | Except.error _ => configurationMode.modeClient

/-- The environment inputs read by the package `init` function;
`os.Getenv` returns the empty string for an unset variable. -/
structure Env where
  CONFIGURATION_MODE : String
  SOURCEGRAPH_CONFIG_FILE : String
  SOURCEGRAPH_CONFIG_CORE_FILE : String
  executable : Except GoError String

/-- The observable actions of the package `init` function, in program
order. -/
inductive InitEvent where
  | newBasicStore
  | newCoreStore
  | setDefaultClient
  | maybeUpdateBasic (raw : String)
  | maybeUpdateCore (raw : String)
  | logFatal (msg : String)
  | newConfServer (basicFile coreFile : String)
  | startConfServer
  | installPassthroughBasicFetcher
  | installPassthroughCoreFetcher
  | launchContinuousUpdate
deriving DecidableEq, Repr

/-- The placeholder raw document seeded into both stores in test mode (the
raw string literal of the source, brace characters written as escapes). -/
def dummyConfig : String :=
  "\n\t\t\x7b\n\t\t\t// This is an empty configuration to run test cases.\n\t\t\x7d"

/-- Prefix of the fatal log emitted when seeding a store fails in test mode
(the source uses this same wording for both stores). -/
def fatalSeedMsg : String :=
  "received error when setting up the basic store for the default client during test, err :"

/-- Embedding of the package `init` function of `pkg/conf/conf.go`: build
the two stores and the default client with the HTTP fetchers, resolve the
mode, and then (test mode) seed both stores with `dummyConfig` via
`MaybeUpdate` and return without launching the background loop, dying via
`log.Fatalf` if seeding fails (result `none`); (server mode) construct and
start the configuration server from the environment-provided file paths,
install the passthrough fetchers, then launch `continuouslyUpdate`;
(client mode) just launch `continuouslyUpdate`.  The store package is not
under src/, so the two validators are parameters. -/
def confInit (env : Env) (vB : String → Option BasicSiteConfiguration)
    (vC : String → Option CoreSiteConfiguration) : List InitEvent × Option client :=
  let clientBasicStore := NewBasicStore vB
  let clientCoreStore := NewCoreStore vC
  let dc : client :=
    { basicStore := clientBasicStore, coreStore := clientCoreStore,
      basicFetcher := BasicFetcherKind.httpBasicFetcher,
      coreFetcher := CoreFetcherKind.httpCoreFetcher,
      watchers := [], nextAddr := 0 }
  let pre := [InitEvent.newBasicStore, InitEvent.newCoreStore, InitEvent.setDefaultClient]
  let mode := getMode env.CONFIGURATION_MODE env.executable
  if mode = configurationMode.modeTest then
    let rb := clientBasicStore.MaybeUpdate dummyConfig
    match rb.2.2 with
    | some err =>
      (pre ++ [InitEvent.maybeUpdateBasic dummyConfig,
               InitEvent.logFatal (fatalSeedMsg ++ err.msg)], none)
    | none =>
      let dc := { dc with basicStore := rb.1 }
      let rc := clientCoreStore.MaybeUpdate dummyConfig
      match rc.2.2 with
      | some err =>
        (pre ++ [InitEvent.maybeUpdateBasic dummyConfig,
                 InitEvent.maybeUpdateCore dummyConfig,
                 InitEvent.logFatal (fatalSeedMsg ++ err.msg)], none)
      | none =>
        (pre ++ [InitEvent.maybeUpdateBasic dummyConfig,
                 InitEvent.maybeUpdateCore dummyConfig],
         some { dc with coreStore := rc.1 })
  else if mode = configurationMode.modeServer then
    (pre ++ [InitEvent.newConfServer env.SOURCEGRAPH_CONFIG_FILE
               env.SOURCEGRAPH_CONFIG_CORE_FILE,
             InitEvent.startConfServer,
             InitEvent.installPassthroughBasicFetcher,
             InitEvent.installPassthroughCoreFetcher,
             InitEvent.launchContinuousUpdate],
     some { dc with basicFetcher := BasicFetcherKind.passthroughBasicFetcherFrontendOnly,
                    coreFetcher := CoreFetcherKind.passthroughCoreFetcherFrontendOnly })
  else
    (pre ++ [InitEvent.launchContinuousUpdate], some dc)

/-- One client operation of the public surface, used to reason about whole
executions; the oracle results of external calls are carried in the
operation. -/
inductive Op where
  | get
  | getTODO
  | mockBasic (v : Option BasicSiteConfiguration)
  | mockCore (v : Option CoreSiteConfiguration)
  | watch
  | notify
  | fetchBasic (r : Except GoError String)
  | fetchCore (r : Except GoError String)

/-- State transition of a single operation. -/
def applyOp (c : client) (op : Op) : client :=
  match op with
  | Op.get => (c.Get).1
  | Op.getTODO => (c.GetTODO).1
  | Op.mockBasic v => c.MockBasic v
  | Op.mockCore v => c.MockCore v
  | Op.watch => (c.Watch).1
  | Op.notify => c.notifyWatchers
  | Op.fetchBasic r => (c.fetchAndUpdateBasic r).1
  | Op.fetchCore r => (c.fetchAndUpdateCore r).1

/-- State after a sequence of operations. -/
def runOps (c : client) (ops : List Op) : client := ops.foldl applyOp c

/-- The empty string, the value of an unset environment variable. -/
def emptyStr : String := ""

/-- A concrete executable path with the go-test extension. -/
def testExePath : String := "/tmp/pkg.test"

/-- A validator that accepts every raw document, for concrete runs. -/
def vAcceptB : String → Option BasicSiteConfiguration := fun s => some ⟨s⟩

/-- A core-category validator that accepts every raw document. -/
def vAcceptC : String → Option CoreSiteConfiguration := fun s => some ⟨s⟩

/-- A concrete client with two registered capacity-1 watcher channels, one
empty and one already holding a pending notification. -/
def sampleClientW : client :=
  { basicStore := NewBasicStore vAcceptB,
    basicFetcher := BasicFetcherKind.httpBasicFetcher,
    coreStore := NewCoreStore vAcceptC,
    coreFetcher := CoreFetcherKind.httpCoreFetcher,
    watchers := [{ cap := 1, pending := 0 }, { cap := 1, pending := 1 }],
    nextAddr := 0 }

/-- A concrete client with no watchers and rejecting validators. -/
def sampleClient : client :=
  { basicStore := NewBasicStore (fun _ => none),
    basicFetcher := BasicFetcherKind.httpBasicFetcher,
    coreStore := NewCoreStore (fun _ => none),
    coreFetcher := CoreFetcherKind.httpCoreFetcher,
    watchers := [], nextAddr := 0 }

/-- C10: `Get()` and `GetTODO()` always return a non-nil pointer to a
`SiteConfiguration`, for every state of the client — including before
either store has been initialized, when the `Basic` and/or `Core` fields
of the pointee may themselves be nil — and `GetTODO` returns exactly what
`Get` returns. -/
theorem c10_get_never_nil (c : client) :
    ((c.Get).2).isSome = true
    ∧ ((c.GetTODO).2).isSome = true
    ∧ c.GetTODO = c.Get
    ∧ (c.Get).2.map (fun p => p.val.Basic) = some c.basicStore.LastValid
    ∧ (c.Get).2.map (fun p => p.val.Core) = some c.coreStore.LastValid :=
  ⟨rfl, rfl, rfl, rfl, rfl⟩

/-- C9: `MockBasic(value)` and `MockCore(value)` call only the
corresponding store's `Mock` operation: the other store, both fetchers,
the watcher registry with every watcher channel, and the heap counter are
left unchanged — in particular no notification is sent — even though the
effective configuration visible through `Get` changes immediately. -/
theorem c9_mock_frame (c : client) (vb : Option BasicSiteConfiguration)
    (vc : Option CoreSiteConfiguration) :
    (c.MockBasic vb).basicStore = c.basicStore.Mock vb
    ∧ (c.MockBasic vb).coreStore = c.coreStore
    ∧ (c.MockBasic vb).watchers = c.watchers
    ∧ (c.MockBasic vb).basicFetcher = c.basicFetcher
    ∧ (c.MockBasic vb).coreFetcher = c.coreFetcher
    ∧ (c.MockBasic vb).nextAddr = c.nextAddr
    ∧ (c.MockCore vc).coreStore = c.coreStore.Mock vc
    ∧ (c.MockCore vc).basicStore = c.basicStore
    ∧ (c.MockCore vc).watchers = c.watchers
    ∧ (c.MockCore vc).basicFetcher = c.basicFetcher
    ∧ (c.MockCore vc).coreFetcher = c.coreFetcher
    ∧ (c.MockCore vc).nextAddr = c.nextAddr
    ∧ (∀ b, ((c.MockBasic (some b)).Get).2.map (fun p => p.val.Basic) = some (some b))
    ∧ (∀ k, ((c.MockCore (some k)).Get).2.map (fun p => p.val.Core) = some (some k)) :=
  ⟨rfl, rfl, rfl, rfl, rfl, rfl, rfl, rfl, rfl, rfl, rfl, rfl,
   fun _ => rfl, fun _ => rfl⟩

/-- C2: `Watch(f)` first allocates a notification channel of capacity
exactly 1 and appends it to the watcher registry, then waits for both
stores to report initialized, and invokes `f` synchronously exactly once
before returning: the emitted trace performs the registration before the
two waits and the single invocation, and the state at return has the new
capacity-1 channel appended. -/
theorem c2_watch_order (c : client) :
    (c.Watch).2 = watchTrace
    ∧ watchTrace = [WatchEvent.makeChan 1, WatchEvent.registerWatcher,
       WatchEvent.waitUntilInitializedBasic, WatchEvent.waitUntilInitializedCore,
       WatchEvent.invokeF, WatchEvent.spawnNotifyLoop]
    ∧ (c.Watch).1.watchers = c.watchers ++ [{ cap := 1, pending := 0 }]
    ∧ watchTrace.count WatchEvent.invokeF = 1
    ∧ watchTrace.indexOf WatchEvent.registerWatcher <
        watchTrace.indexOf WatchEvent.waitUntilInitializedBasic
    ∧ watchTrace.indexOf WatchEvent.waitUntilInitializedCore <
        watchTrace.indexOf WatchEvent.invokeF :=
  ⟨rfl, rfl, rfl, by decide, by decide, by decide⟩

/-- No client operation touches the store updates' heap counter except by
allocating, so the counter never decreases. -/
lemma applyOp_nextAddr_le (c : client) (op : Op) : c.nextAddr ≤ (applyOp c op).nextAddr := by
  cases op with
  | get => exact Nat.le_succ _
  | getTODO => exact Nat.le_succ _
  | mockBasic v => exact Nat.le_refl _
  | mockCore v => exact Nat.le_refl _
  | watch => exact Nat.le_refl _
  | notify => exact Nat.le_refl _
  | fetchBasic r =>
    cases r with
    | error e => exact Nat.le_refl _
    | ok raw =>
      simp only [applyOp, client.fetchAndUpdateBasic]
      cases (c.basicStore.MaybeUpdate raw).2.2 with
      | some e => exact Nat.le_refl _
      | none =>
        dsimp only
        split
        · exact Nat.le_refl _
        · exact Nat.le_refl _
  | fetchCore r =>
    cases r with
    | error e => exact Nat.le_refl _
    | ok raw =>
      simp only [applyOp, client.fetchAndUpdateCore]
      cases (c.coreStore.MaybeUpdate raw).2.2 with
      | some e => exact Nat.le_refl _
      | none =>
        dsimp only
        split
        · exact Nat.le_refl _
        · exact Nat.le_refl _

/-- The heap counter never decreases along any sequence of operations. -/
lemma runOps_nextAddr_le (ops : List Op) (c : client) : c.nextAddr ≤ (runOps c ops).nextAddr := by
  induction ops generalizing c with
  | nil => exact Nat.le_refl _
  | cons op ops ih =>
    exact Nat.le_trans (applyOp_nextAddr_le c op) (ih (applyOp c op))

/-- C5: `Get()` returns a `SiteConfiguration` whose `Basic` field is
`basicStore.LastValid()` and whose `Core` field is `coreStore.LastValid()`,
allocated fresh on every call: the returned pointer's address is the
current heap counter, the counter strictly advances, and the pointer
returned by a later `Get` — after any sequence of client operations —
never aliases it. -/
theorem c5_get_combines_and_is_fresh (c : client) (ops : List Op) :
    (c.Get).2 = some ⟨c.nextAddr,
      { Basic := c.basicStore.LastValid, Core := c.coreStore.LastValid }⟩
    ∧ (c.Get).1.nextAddr = c.nextAddr + 1
    ∧ ∀ p q : Ptr SiteConfiguration,
        (c.Get).2 = some p → ((runOps (c.Get).1 ops).Get).2 = some q →
        p.addr ≠ q.addr := by
  refine ⟨rfl, rfl, ?_⟩
  intro p q hp hq
  have hp' : p.addr = c.nextAddr := by
    have := Option.some.inj hp
    exact congrArg Ptr.addr this.symm
  have hq' : q.addr = (runOps (c.Get).1 ops).nextAddr := by
    have := Option.some.inj hq
    exact congrArg Ptr.addr this.symm
  have hmono : (c.Get).1.nextAddr ≤ (runOps (c.Get).1 ops).nextAddr :=
    runOps_nextAddr_le ops (c.Get).1
  have hlt : c.nextAddr < (runOps (c.Get).1 ops).nextAddr :=
    Nat.lt_of_lt_of_le (Nat.lt_succ_self _) hmono
  rw [hp', hq']
  exact Nat.ne_of_lt hlt

/-- C5 witness: two consecutive `Get` calls on a concrete client return
pointers with distinct addresses. -/
theorem c5_get_combines_and_is_fresh_witness :
    (⟨0, { Basic := none, Core := none }⟩ : Ptr SiteConfiguration).addr ≠
      (⟨1, { Basic := none, Core := none }⟩ : Ptr SiteConfiguration).addr :=
  (c5_get_combines_and_is_fresh sampleClient []).2.2
    ⟨0, { Basic := none, Core := none }⟩
    ⟨1, { Basic := none, Core := none }⟩ rfl rfl

/-- C3: `notifyWatchers` performs only non-blocking sends — a watcher
channel whose buffer is full is skipped and left as-is, one with room
gains exactly one pending notification — the registry keeps its length
(and the embedding is a total function: the loop terminates whether or not
any watcher drains its channel), and when every registered channel has the
capacity 1 that `Watch` gives it, every channel holds at least one pending
notification afterwards. -/
theorem c3_notifyWatchers_nonblocking (c : client) :
    ((c.notifyWatchers).watchers.length = c.watchers.length)
    ∧ (∀ i w, c.watchers.get? i = some w → w.cap ≤ w.pending →
        (c.notifyWatchers).watchers.get? i = some w)
    ∧ (∀ i w, c.watchers.get? i = some w → w.pending < w.cap →
        (c.notifyWatchers).watchers.get? i = some { cap := w.cap, pending := w.pending + 1 })
    ∧ ((∀ w ∈ c.watchers, w.cap = 1) →
        ∀ w' ∈ (c.notifyWatchers).watchers, 1 ≤ w'.pending) := by
  refine ⟨?_, ?_, ?_, ?_⟩
  · simp [client.notifyWatchers]
  · intro i w h hfull
    rw [show (c.notifyWatchers).watchers = c.watchers.map (fun w => (w.trySend).1) from rfl,
        List.get?_map, h]
    simp [Chan.trySend, Nat.not_lt.mpr hfull]
  · intro i w h hlt
    rw [show (c.notifyWatchers).watchers = c.watchers.map (fun w => (w.trySend).1) from rfl,
        List.get?_map, h]
    simp [Chan.trySend, hlt]
  · intro hcap w' hw'
    simp only [client.notifyWatchers, List.mem_map] at hw'
    obtain ⟨w, hw, rfl⟩ := hw'
    have h1 := hcap w hw
    rcases Nat.lt_or_ge w.pending w.cap with h | h
    · simp [Chan.trySend, h]
    · simp only [Chan.trySend, Nat.not_lt.mpr h, if_false]
      omega

/-- C3 witness: on a concrete client whose two capacity-1 channels are one
empty and one full, the full one is left as-is, the empty one gains one
notification, and afterwards every channel has a pending notification. -/
theorem c3_notifyWatchers_nonblocking_witness :
    (sampleClientW.notifyWatchers).watchers.get? 1 = some { cap := 1, pending := 1 }
    ∧ (sampleClientW.notifyWatchers).watchers.get? 0 = some { cap := 1, pending := 1 }
    ∧ ∀ w' ∈ (sampleClientW.notifyWatchers).watchers, 1 ≤ w'.pending :=
  ⟨(c3_notifyWatchers_nonblocking sampleClientW).2.1 1 { cap := 1, pending := 1 }
      (by decide) (by decide),
   (c3_notifyWatchers_nonblocking sampleClientW).2.2.1 0 { cap := 1, pending := 0 }
      (by decide) (by decide),
   (c3_notifyWatchers_nonblocking sampleClientW).2.2.2 (by decide)⟩

/-- C4: for each category, one refresh step broadcasts to the watcher
channels if and only if the fetch succeeded, the store's `MaybeUpdate`
returned no error, and it reported an effective change; a fetch error is
returned wrapped with the fetch context, an update error wrapped with the
update context, and in every non-broadcast outcome the watcher channels
are untouched. -/
theorem c4_refresh_step_notifies_iff_changed (c : client) (fetched : Except GoError String) :
    ((c.fetchAndUpdateBasic fetched).2.2 = true ↔
      ∃ raw, fetched = Except.ok raw
        ∧ (c.basicStore.MaybeUpdate raw).2.2 = none
        ∧ (c.basicStore.MaybeUpdate raw).2.1.Changed = true)
    ∧ (∀ e, fetched = Except.error e →
        c.fetchAndUpdateBasic fetched = (c, some (errorsWrap e msgFetchBasic), false))
    ∧ (∀ raw e, fetched = Except.ok raw →
        (c.basicStore.MaybeUpdate raw).2.2 = some e →
        (c.fetchAndUpdateBasic fetched).2.1 = some (errorsWrap e msgUpdateBasic)
        ∧ (c.fetchAndUpdateBasic fetched).2.2 = false)
    ∧ ((c.fetchAndUpdateBasic fetched).2.2 = false →
        (c.fetchAndUpdateBasic fetched).1.watchers = c.watchers)
    ∧ ((c.fetchAndUpdateCore fetched).2.2 = true ↔
      ∃ raw, fetched = Except.ok raw
        ∧ (c.coreStore.MaybeUpdate raw).2.2 = none
        ∧ (c.coreStore.MaybeUpdate raw).2.1.Changed = true)
    ∧ (∀ e, fetched = Except.error e →
        c.fetchAndUpdateCore fetched = (c, some (errorsWrap e msgFetchCore), false))
    ∧ (∀ raw e, fetched = Except.ok raw →
        (c.coreStore.MaybeUpdate raw).2.2 = some e →
        (c.fetchAndUpdateCore fetched).2.1 = some (errorsWrap e msgUpdateCore)
        ∧ (c.fetchAndUpdateCore fetched).2.2 = false)
    ∧ ((c.fetchAndUpdateCore fetched).2.2 = false →
        (c.fetchAndUpdateCore fetched).1.watchers = c.watchers) := by
  refine ⟨?_, ?_, ?_, ?_, ?_, ?_, ?_, ?_⟩
  · cases fetched with
    | error e => simp [client.fetchAndUpdateBasic]
    | ok raw =>
      simp only [client.fetchAndUpdateBasic]
      cases h : (c.basicStore.MaybeUpdate raw).2.2 with
      | some e => simp [h]
      | none =>
        cases hc : (c.basicStore.MaybeUpdate raw).2.1.Changed with
        | true => simp [h, hc]
        | false => simp [h, hc]
  · intro e he
    subst he
    rfl
  · intro raw e he hu
    subst he
    simp [client.fetchAndUpdateBasic, hu]
  · cases fetched with
    | error e => intro _; rfl
    | ok raw =>
      simp only [client.fetchAndUpdateBasic]
      cases h : (c.basicStore.MaybeUpdate raw).2.2 with
      | some e => intro _; rfl
      | none =>
        cases hc : (c.basicStore.MaybeUpdate raw).2.1.Changed with
        | true => simp [hc]
        | false => simp [hc]
  · cases fetched with
    | error e => simp [client.fetchAndUpdateCore]
    | ok raw =>
      simp only [client.fetchAndUpdateCore]
      cases h : (c.coreStore.MaybeUpdate raw).2.2 with
      | some e => simp [h]
      | none =>
        cases hc : (c.coreStore.MaybeUpdate raw).2.1.Changed with
        | true => simp [h, hc]
        | false => simp [h, hc]
  · intro e he
    subst he
    rfl
  · intro raw e he hu
    subst he
    simp [client.fetchAndUpdateCore, hu]
  · cases fetched with
    | error e => intro _; rfl
    | ok raw =>
      simp only [client.fetchAndUpdateCore]
      cases h : (c.coreStore.MaybeUpdate raw).2.2 with
      | some e => intro _; rfl
      | none =>
        cases hc : (c.coreStore.MaybeUpdate raw).2.1.Changed with
        | true => simp [hc]
        | false => simp [hc]

/-- A concrete raw document accepted by the sample validators. -/
def rawA : String := "a"

/-- A concrete fetch error. -/
def errA : GoError := ⟨"boom"⟩

/-- C4 witness: on a concrete client whose store accepts the document, a
successful fetch of a changed document broadcasts, and a failed fetch
returns the wrapped error without broadcasting. -/
theorem c4_refresh_step_notifies_iff_changed_witness :
    (sampleClientW.fetchAndUpdateBasic (Except.ok rawA)).2.2 = true
    ∧ sampleClientW.fetchAndUpdateBasic (Except.error errA)
        = (sampleClientW, some (errorsWrap errA msgFetchBasic), false) :=
  ⟨(c4_refresh_step_notifies_iff_changed sampleClientW (Except.ok rawA)).1.mpr
      ⟨rawA, rfl, rfl, rfl⟩,
   (c4_refresh_step_notifies_iff_changed sampleClientW (Except.error errA)).2.1 errA rfl⟩

/-- A list of errors is non-empty exactly when its `isEmpty` test fails. -/
lemma bnot_isEmpty_iff (l : List GoError) : ((!l.isEmpty) = true ↔ l ≠ []) := by
  cases l <;> simp

/-- C6: every iteration of the background refresh loop attempts the basic
step and then the core step even if the first fails (the final state is the
core step applied to the basic step's state unconditionally), aggregates
the two steps' errors into one combined multierror which is logged exactly
when non-nil, and ends with a jitter sleep strictly below 5 seconds (the
loop itself has no exit path, so no outcome terminates it). -/
theorem c6_loop_iteration (c : client) (fb fc : Except GoError String) (seed : Nat) :
    (c.continuouslyUpdateIter fb fc seed).c
        = ((c.fetchAndUpdateBasic fb).1.fetchAndUpdateCore fc).1
    ∧ (c.continuouslyUpdateIter fb fc seed).errs =
        multierrorAppend (multierrorAppend [] (c.fetchAndUpdateBasic fb).2.1)
          ((c.fetchAndUpdateBasic fb).1.fetchAndUpdateCore fc).2.1
    ∧ ((c.continuouslyUpdateIter fb fc seed).logged = true ↔
        (c.continuouslyUpdateIter fb fc seed).errs ≠ [])
    ∧ (c.continuouslyUpdateIter fb fc seed).jitterNs < 5 * nsPerSecond := by
  refine ⟨rfl, rfl, ?_, ?_⟩
  · exact bnot_isEmpty_iff _
  · exact Nat.mod_lt seed (by norm_num [nsPerSecond])

/-- C6 witness: a concrete iteration with two failing fetches still runs
both steps, logs the two aggregated wrapped errors, and sleeps less than
5 seconds. -/
theorem c6_loop_iteration_witness :
    (sampleClientW.continuouslyUpdateIter (Except.error errA) (Except.error errA) 7).jitterNs
        < 5 * nsPerSecond
    ∧ ((sampleClientW.continuouslyUpdateIter (Except.error errA) (Except.error errA) 7).logged
          = true ↔
        (sampleClientW.continuouslyUpdateIter (Except.error errA) (Except.error errA) 7).errs
          ≠ []) :=
  ⟨(c6_loop_iteration sampleClientW (Except.error errA) (Except.error errA) 7).2.2.2,
   (c6_loop_iteration sampleClientW (Except.error errA) (Except.error errA) 7).2.2.1⟩

/-- C7: `getMode` returns `modeServer` exactly when `CONFIGURATION_MODE`
is the string "server", returns `modeClient` when it is "client", and for
every other value — the unset empty string included — returns `modeTest`
precisely when the executable path was obtained without error and has the
".test" extension, falling back to `modeClient` otherwise, so client is
the default role. -/
theorem c7_getMode_roles (m : String) (e : Except GoError String) :
    (getMode m e = configurationMode.modeServer ↔ m = modeStrServer)
    ∧ (m = modeStrClient → getMode m e = configurationMode.modeClient)
    ∧ (m ≠ modeStrServer → m ≠ modeStrClient →
        (∀ p, e = Except.ok p →
          getMode m e = (if filepathExt p = extTest then configurationMode.modeTest
                         else configurationMode.modeClient))
        ∧ (∀ er, e = Except.error er → getMode m e = configurationMode.modeClient)) := by
  by_cases h1 : m = modeStrServer
  · refine ⟨by simp [getMode, h1], ?_, ?_⟩
    · intro h2
      rw [h1] at h2
      exact absurd h2 (by decide)
    · intro hns _
      exact absurd h1 hns
  · by_cases h2 : m = modeStrClient
    · refine ⟨?_, fun _ => by rw [h2]; rfl, ?_⟩
      · simp [getMode, h1, h2]
      · intro _ hnc
        exact absurd h2 hnc
    · cases e with
      | ok p =>
        refine ⟨?_, fun hc => absurd hc h2, ?_⟩
        · by_cases h3 : filepathExt p = extTest <;> simp [getMode, h1, h2, h3]
        · intro _ _
          constructor
          · intro p' hp'
            have hpp := Except.ok.inj hp'
            subst hpp
            simp [getMode, h1, h2]
          · intro er her
            simp at her
      | error er =>
        refine ⟨by simp [getMode, h1, h2], fun hc => absurd hc h2, ?_⟩
        intro _ _
        constructor
        · intro p hp
          simp at hp
        · intro er' her'
          simp [getMode, h1, h2]

/-- C7 witness: with the variable unset and a ".test" executable, the mode
resolves to test; with it set to "server", to server. -/
theorem c7_getMode_roles_witness :
    getMode emptyStr (Except.ok testExePath) = configurationMode.modeTest
    ∧ getMode modeStrServer (Except.ok testExePath) = configurationMode.modeServer := by
  constructor
  · have h := ((c7_getMode_roles emptyStr (Except.ok testExePath)).2.2
        (by decide) (by decide)).1 testExePath rfl
    rw [h]
    decide
  · exact (c7_getMode_roles modeStrServer (Except.ok testExePath)).1.mpr rfl

/-- C8: in server mode, `init` constructs the authoritative configuration
server from the two environment-provided file paths and starts it, then
installs the passthrough fetchers on the default client, and only after
that launches the background refresh goroutine — the full trace and the
resulting client state, in program order. -/
theorem c8_server_mode_startup_order (env : Env)
    (vB : String → Option BasicSiteConfiguration)
    (vC : String → Option CoreSiteConfiguration)
    (h : env.CONFIGURATION_MODE = modeStrServer) :
    confInit env vB vC =
      ([InitEvent.newBasicStore, InitEvent.newCoreStore, InitEvent.setDefaultClient,
        InitEvent.newConfServer env.SOURCEGRAPH_CONFIG_FILE env.SOURCEGRAPH_CONFIG_CORE_FILE,
        InitEvent.startConfServer, InitEvent.installPassthroughBasicFetcher,
        InitEvent.installPassthroughCoreFetcher, InitEvent.launchContinuousUpdate],
       some { basicStore := NewBasicStore vB,
              basicFetcher := BasicFetcherKind.passthroughBasicFetcherFrontendOnly,
              coreStore := NewCoreStore vC,
              coreFetcher := CoreFetcherKind.passthroughCoreFetcherFrontendOnly,
              watchers := [], nextAddr := 0 }) := by
  have hm : getMode env.CONFIGURATION_MODE env.executable = configurationMode.modeServer := by
    rw [h]
    rfl
  simp [confInit, hm]

/-- A concrete basic-category configuration file path. -/
def fileBasic : String := "/etc/sourcegraph/config.json"

/-- A concrete core-category configuration file path. -/
def fileCore : String := "/etc/sourcegraph/core.json"

/-- A concrete environment selecting server mode. -/
def envServer : Env :=
  { CONFIGURATION_MODE := modeStrServer, SOURCEGRAPH_CONFIG_FILE := fileBasic,
    SOURCEGRAPH_CONFIG_CORE_FILE := fileCore, executable := Except.error errA }

/-- C8 witness: the server-mode startup trace at a concrete environment. -/
theorem c8_server_mode_startup_order_witness :
    confInit envServer vAcceptB vAcceptC =
      ([InitEvent.newBasicStore, InitEvent.newCoreStore, InitEvent.setDefaultClient,
        InitEvent.newConfServer fileBasic fileCore,
        InitEvent.startConfServer, InitEvent.installPassthroughBasicFetcher,
        InitEvent.installPassthroughCoreFetcher, InitEvent.launchContinuousUpdate],
       some { basicStore := NewBasicStore vAcceptB,
              basicFetcher := BasicFetcherKind.passthroughBasicFetcherFrontendOnly,
              coreStore := NewCoreStore vAcceptC,
              coreFetcher := CoreFetcherKind.passthroughCoreFetcherFrontendOnly,
              watchers := [], nextAddr := 0 }) :=
  c8_server_mode_startup_order envServer vAcceptB vAcceptC rfl

/-- A concrete environment resolving to test mode: the variable is unset
and the executable has the go-test extension. -/
def envTest : Env :=
  { CONFIGURATION_MODE := emptyStr, SOURCEGRAPH_CONFIG_FILE := emptyStr,
    SOURCEGRAPH_CONFIG_CORE_FILE := emptyStr, executable := Except.ok testExePath }

/-- C1 counterexample: the claim asserts that in test mode the background
refresh loop is still started after seeding, but at this concrete
test-mode startup the `init` trace never launches `continuouslyUpdate` —
`init` returns right after seeding the two stores. -/
theorem c1_counterexample_no_loop_in_test_mode :
    InitEvent.launchContinuousUpdate ∉ (confInit envTest vAcceptB vAcceptC).1 := by
  decide

/-- C1 (amended): when the process role resolves to test mode, both stores
are seeded synchronously at startup with the empty placeholder raw
document via `MaybeUpdate` (becoming initialized), and the background
refresh loop is NOT started afterward: `init` returns before launching
it, keeping the HTTP fetchers wired. -/
theorem c1_test_mode_seeds_without_loop (env : Env)
    (vB : String → Option BasicSiteConfiguration)
    (vC : String → Option CoreSiteConfiguration)
    (b : BasicSiteConfiguration) (k : CoreSiteConfiguration)
    (hmode : getMode env.CONFIGURATION_MODE env.executable = configurationMode.modeTest)
    (hb : vB dummyConfig = some b) (hk : vC dummyConfig = some k) :
    (confInit env vB vC).1 =
      [InitEvent.newBasicStore, InitEvent.newCoreStore, InitEvent.setDefaultClient,
       InitEvent.maybeUpdateBasic dummyConfig, InitEvent.maybeUpdateCore dummyConfig]
    ∧ InitEvent.launchContinuousUpdate ∉ (confInit env vB vC).1
    ∧ (confInit env vB vC).2 =
        some { basicStore := { validate := vB, lastValid := some b, mock := none,
                               initialized := true },
               basicFetcher := BasicFetcherKind.httpBasicFetcher,
               coreStore := { validate := vC, lastValid := some k, mock := none,
                              initialized := true },
               coreFetcher := CoreFetcherKind.httpCoreFetcher,
               watchers := [], nextAddr := 0 } := by
  have ht : (confInit env vB vC).1 =
      [InitEvent.newBasicStore, InitEvent.newCoreStore, InitEvent.setDefaultClient,
       InitEvent.maybeUpdateBasic dummyConfig, InitEvent.maybeUpdateCore dummyConfig] := by
    simp [confInit, hmode, BasicStore.MaybeUpdate, CoreStore.MaybeUpdate,
          NewBasicStore, NewCoreStore, hb, hk]
  refine ⟨ht, ?_, ?_⟩
  · rw [ht]
    simp
  · simp [confInit, hmode, BasicStore.MaybeUpdate, CoreStore.MaybeUpdate,
          NewBasicStore, NewCoreStore, hb, hk]

/-- C1 witness: the amended behavior at the concrete test-mode startup:
the trace seeds both stores and never launches the loop. -/
theorem c1_test_mode_seeds_without_loop_witness :
    (confInit envTest vAcceptB vAcceptC).1 =
      [InitEvent.newBasicStore, InitEvent.newCoreStore, InitEvent.setDefaultClient,
       InitEvent.maybeUpdateBasic dummyConfig, InitEvent.maybeUpdateCore dummyConfig]
    ∧ InitEvent.launchContinuousUpdate ∉ (confInit envTest vAcceptB vAcceptC).1 :=
  ⟨(c1_test_mode_seeds_without_loop envTest vAcceptB vAcceptC
      ⟨dummyConfig⟩ ⟨dummyConfig⟩ (by rfl) rfl rfl).1,
   (c1_test_mode_seeds_without_loop envTest vAcceptB vAcceptC
      ⟨dummyConfig⟩ ⟨dummyConfig⟩ (by rfl) rfl rfl).2.1⟩
